import Mathlib

/-!
# HCloudMachineTemplate reconciler: one reconcile pass

A shallow embedding of `controllers/hcloudmachinetemplate_controller.go`.

One pass of `Reconcile` is a straight-line sequence of calls into collaborators
(object store, credential helper, scope, rate limiter, sub-reconciler) with early
returns and one deferred `Close`.  The collaborators are not part of the file;
they are the fields of `HCloudMachineTemplateReconciler` below.  Every call that can
read or change something outside the pass is a state transformer over an arbitrary
external world `σ` (store contents, clock, cloud); `breakReconcile` is a pure function.
The object under reconciliation is held by pointer in the Go code; here it is the
value `mt` that is threaded through every call that receives the pointer.

The pass records every collaborator call in a trace (ghost state), so that the
ordering properties of the pass can be stated.  Logging calls and the construction
of the secret manager have no effect on control flow or on the object and are left
out.
-/

set_option linter.dupNamespace false

namespace Hetzner

/-! ## Errors -/

/-- A Go `error` value (non-nil).  `notFound` is an API status error whose reason is
NotFound and `plain` any other error that wraps nothing (also the value of
`errors.Errorf`).  `withMessage` and `withStack` are the two wrappers of the library
`github.com/pkg/errors`: `errors.Wrapf` puts the first around the error and the second
around that.  The call stack kept by `withStack` is left out. -/
inductive Error where
  | notFound (msg : String)
  | plain (msg : String)
  | withMessage (cause : Error) (msg : String)
  | withStack (inner : Error)
  deriving DecidableEq, Repr

namespace Error

/-- The method `Error()` of the error: its message. -/
def Error : Hetzner.Error → String
  | notFound m => m
  | plain m => m
  | withMessage c m => m ++ ": " ++ c.Error
  | withStack e => e.Error

/-- The method `Cause()`, which only the two wrappers have: of `withMessage` the wrapped
error, of `withStack` the error it holds. -/
def Cause : Hetzner.Error → Option Hetzner.Error
  | withMessage c _ => some c
  | withStack e => some e
  | _ => none

/-- The test `apierrors.IsNotFound`, which looks through wrapping. -/
def IsNotFound : Hetzner.Error → Bool
  | notFound _ => true
  | plain _ => false
  | withMessage c _ => c.IsNotFound
  | withStack e => e.IsNotFound

end Error

/-- The library function `errors.Cause`: follows the method `Cause()` down to the first
error that has none, the root cause. -/
def errorsCause : Error → Error
  | .withMessage c _ => errorsCause c
  | .withStack e => errorsCause e
  | e => e

/-- The library function `client.IgnoreNotFound`: nil on a not-found error, the error
itself otherwise. -/
def IgnoreNotFound (err : Error) : Option Error :=
  if err.IsNotFound then none else some err

/-- The library function `errors.Wrapf` with its format already expanded to `msg`:
nil stays nil, any other error is wrapped in `withMessage` and that in `withStack`. -/
def Wrapf (err : Option Error) (msg : String) : Option Error :=
  match err with
  | none => none
  | some e => some (Error.withStack (Error.withMessage e msg))

/-! ## Data model -/

/-- One second as a `time.Duration` (nanoseconds). -/
def Second : Int := 1000000000

/-- The type `ctrl.Result`. -/
structure Result where
  Requeue : Bool
  RequeueAfter : Int
  deriving DecidableEq, Repr

/-- The zero value `ctrl.Result{}`. -/
def Result.empty : Result := ⟨false, 0⟩

/-- The key `types.NamespacedName` (also `client.ObjectKey`). -/
structure NamespacedName where
  Namespace : String
  Name : String
  deriving DecidableEq, Repr

/-- The request `ctrl.Request`. -/
structure Request where
  NamespacedName : NamespacedName
  deriving DecidableEq, Repr

/-- The namespace of the request, `req.Namespace`. -/
def Request.Namespace (req : Request) : String := req.NamespacedName.Namespace

/-- The fields of `metav1.ObjectMeta` the pass can touch. -/
structure ObjectMeta where
  Namespace : String
  Name : String
  Labels : List (String × String)
  Finalizers : List String
  deriving DecidableEq, Repr

/-- The object `infrav1.HCloudMachineTemplate`; its status is a list of conditions
(type, status), which is where the rate limiter keeps its state. -/
structure HCloudMachineTemplate where
  ObjectMeta : ObjectMeta
  Spec : String
  Status : List (String × String)
  deriving DecidableEq, Repr

/-- The embedded field `machineTemplate.Namespace`. -/
def HCloudMachineTemplate.Namespace (o : HCloudMachineTemplate) : String := o.ObjectMeta.Namespace

/-- The embedded field `machineTemplate.Name`. -/
def HCloudMachineTemplate.Name (o : HCloudMachineTemplate) : String := o.ObjectMeta.Name

/-- The parent `clusterv1.Cluster`: its name and `Spec.InfrastructureRef.Name`. -/
structure Cluster where
  Name : String
  InfrastructureRefName : String
  deriving DecidableEq, Repr

/-- The sibling `infrav1.HetznerCluster`, of which the pass only passes on the value. -/
structure HetznerCluster where
  Namespace : String
  Name : String
  SecretName : String
  deriving DecidableEq, Repr

/-- A client of the cloud API, as returned by the client factory. -/
structure HCloudClient where
  token : String
  handle : Nat
  deriving DecidableEq, Repr

/-- The parameters `scope.HCloudMachineTemplateScopeParams` (client and logger left out). -/
structure HCloudMachineTemplateScopeParams where
  HCloudMachineTemplate : HCloudMachineTemplate
  HCloudClient : HCloudClient
  deriving DecidableEq, Repr

/-- The scope `scope.HCloudMachineTemplateScope`: the snapshot taken at construction and
the API client.  Its field `HCloudMachineTemplate` is the pointer given in the parameters,
that is the live object `mt` of the pass. -/
structure HCloudMachineTemplateScope where
  patchBase : HCloudMachineTemplate
  HCloudClient : HCloudClient
  deriving DecidableEq, Repr

/-- The library function `controllerutil.AddFinalizer`: appends the finalizer unless the
object already has it. -/
def AddFinalizer (o : HCloudMachineTemplate) (finalizer : String) : HCloudMachineTemplate :=
  if finalizer ∈ o.ObjectMeta.Finalizers then o
  else { o with ObjectMeta := { o.ObjectMeta with Finalizers := o.ObjectMeta.Finalizers ++ [finalizer] } }

/-! ## Trace of collaborator calls -/

/-- One call of the pass into a collaborator, with what it was given and what it answered.
`patchObject` and `close` carry the live object as handed to the call, `serviceReconcile`
the live object as the sub-reconciler leaves it. -/
inductive Event where
  | get (key : NamespacedName) (obj : Option HCloudMachineTemplate) (err : Option Error)
  | getClusterFromMetadata (meta : ObjectMeta) (err : Option Error)
  | getHetznerCluster (key : NamespacedName) (err : Option Error)
  | getAndValidateHCloudToken (ns : String) (err : Option Error)
  | hcloudTokenErrorResult (inerr : Error)
  | newClient (token : String)
  | newScope (err : Option Error)
  | reconcileRateLimit (wait : Bool)
  | addFinalizer (finalizer : String)
  | patchObject (obj : HCloudMachineTemplate) (err : Option Error)
  | serviceReconcile (objAfter : HCloudMachineTemplate) (res : Result) (err : Option Error)
  | close (obj : HCloudMachineTemplate) (err : Option Error)
  deriving DecidableEq, Repr

namespace Event

/-- Recognises a call of the scope method `Close`. -/
def isClose : Event → Bool
  | close _ _ => true
  | _ => false

/-- Recognises a call of the sub-reconciler, `machinetemplate.NewService(scope).Reconcile`. -/
def isServiceReconcile : Event → Bool
  | serviceReconcile _ _ _ => true
  | _ => false

/-- Recognises a call of the scope method `PatchObject`. -/
def isPatchObject : Event → Bool
  | patchObject _ _ => true
  | _ => false

/-- Recognises a call of `controllerutil.AddFinalizer`. -/
def isAddFinalizer : Event → Bool
  | addFinalizer _ => true
  | _ => false

/-- Recognises the store reads that open the pass: of the object, of its parent Cluster and
of the HetznerCluster. -/
def isFetch : Event → Bool
  | get _ _ _ => true
  | getClusterFromMetadata _ _ => true
  | getHetznerCluster _ _ => true
  | _ => false

end Event

/-- How often `Close` was called in a trace. -/
def closeCount (tr : List Event) : Nat := (tr.filter Event.isClose).length

/-! ## Collaborators -/

/-- The receiver of `Reconcile` together with the helpers of the package and of the
scope that the pass calls and that are declared outside the file.  Every call takes the
external world and returns the new one; a call that is handed the pointer to the live
object also returns the object as it leaves it. -/
structure HCloudMachineTemplateReconciler (σ : Type) where
  /-- The constant `infrav1.MachineFinalizer`. -/
  MachineFinalizer : String
  /-- The constant `infrav1.InstanceReadyCondition`. -/
  InstanceReadyCondition : String
  /-- The store read `r.Get(ctx, req.NamespacedName, machineTemplate)`. -/
  Get : σ → NamespacedName → Except Error HCloudMachineTemplate × σ
  /-- The library lookup `util.GetClusterFromMetadata(ctx, r.Client, meta)`. -/
  GetClusterFromMetadata : σ → ObjectMeta → Except Error Cluster × σ
  /-- The store read `r.Client.Get(ctx, hetznerClusterName, hetznerCluster)`. -/
  GetHetznerCluster : σ → NamespacedName → Except Error HetznerCluster × σ
  /-- The helper `getAndValidateHCloudToken(ctx, namespace, hetznerCluster, secretManager)`. -/
  getAndValidateHCloudToken : σ → String → HetznerCluster → Except Error String × σ
  /-- The helper `hcloudTokenErrorResult(ctx, err, machineTemplate, condition, client)`. -/
  hcloudTokenErrorResult :
    σ → Error → HCloudMachineTemplate → String → (Result × Option Error) × HCloudMachineTemplate × σ
  /-- The factory call `r.HCloudClientFactory.NewClient(token)`. -/
  NewClient : σ → String → HCloudClient × σ
  /-- The constructor `scope.NewHCloudMachineTemplateScope(ctx, params)`. -/
  NewHCloudMachineTemplateScope :
    σ → HCloudMachineTemplateScopeParams → Except Error HCloudMachineTemplateScope × σ
  /-- The scope method `Close(ctx)`. -/
  Close : σ → HCloudMachineTemplateScope → HCloudMachineTemplate → Option Error × HCloudMachineTemplate × σ
  /-- The helper `reconcileRateLimit(machineTemplate)`. -/
  reconcileRateLimit : σ → HCloudMachineTemplate → Bool × HCloudMachineTemplate × σ
  /-- The scope method `PatchObject(ctx)`. -/
  PatchObject : σ → HCloudMachineTemplateScope → HCloudMachineTemplate → Option Error × HCloudMachineTemplate × σ
  /-- The sub-reconciler `machinetemplate.NewService(scope).Reconcile(ctx)`. -/
  ServiceReconcile :
    σ → HCloudMachineTemplateScope → HCloudMachineTemplate → (Result × Option Error) × HCloudMachineTemplate × σ
  /-- The helper `breakReconcile(result, err)`. -/
  breakReconcile : Result → Option Error → Result × Bool × Option Error

/-- What a pass (or a part of it) leaves behind: the returned pair, the calls made so far
and the external world. -/
structure Outcome (σ : Type) where
  result : Result
  reterr : Option Error
  trace : List Event
  world : σ
  deriving Repr

/-- The message of the error that `reconcile` returns on a break, line 127. -/
def reconcileFailedMsg (o : HCloudMachineTemplate) : String :=
  "failed to reconcile machinetemplate for HCloudMachineTemplate " ++ o.Namespace ++ "/" ++ o.Name

/-- The message of the error returned when the scope cannot be built, line 95 (the stack
trace that the verb `%+v` may print is left out). -/
def createScopeFailedMsg (err : Error) : String :=
  "failed to create scope: " ++ err.Error

/-! ## The pass -/

section Pass

variable {σ : Type}

/-- The method `reconcile`, lines 113-131: finalizer, patch, sub-reconciler.  Returns the
outcome and the live object. -/
def HCloudMachineTemplateReconciler.reconcile (r : HCloudMachineTemplateReconciler σ)
    (w : σ) (tr : List Event) (machineTemplateScope : HCloudMachineTemplateScope)
    (mt : HCloudMachineTemplate) : Outcome σ × HCloudMachineTemplate :=
  -- line 118: controllerutil.AddFinalizer(machineTemplateScope.HCloudMachineTemplate, infrav1.MachineFinalizer)
  let mt1 := AddFinalizer mt r.MachineFinalizer
  let tr1 := tr ++ [Event.addFinalizer r.MachineFinalizer]
  -- line 121: if err := machineTemplateScope.PatchObject(ctx); err != nil
  match r.PatchObject w machineTemplateScope mt1 with
  | (some err, mt2, w2) =>
    (⟨Result.empty, some err, tr1 ++ [Event.patchObject mt1 (some err)], w2⟩, mt2)
  | (none, mt2, w2) =>
    let tr2 := tr1 ++ [Event.patchObject mt1 none]
    -- line 126: result, brk, err := breakReconcile(machinetemplate.NewService(scope).Reconcile(ctx))
    match r.ServiceReconcile w2 machineTemplateScope mt2 with
    | ((res, serr), mt3, w3) =>
      let tr3 := tr2 ++ [Event.serviceReconcile mt3 res serr]
      match r.breakReconcile res serr with
      | (result, true, err) =>
        -- line 127
        (⟨result, Wrapf err (reconcileFailedMsg mt3), tr3, w3⟩, mt3)
      | (_, false, _) =>
        -- line 130
        (⟨Result.empty, none, tr3, w3⟩, mt3)

/-- The statements of `Reconcile` that follow the `defer`, lines 105-110: the rate gate and
the call of `reconcile`. -/
def HCloudMachineTemplateReconciler.rateGate (r : HCloudMachineTemplateReconciler σ)
    (w : σ) (tr : List Event) (machineTemplateScope : HCloudMachineTemplateScope)
    (mt : HCloudMachineTemplate) : Outcome σ × HCloudMachineTemplate :=
  -- line 106: if wait := reconcileRateLimit(machineTemplate); wait
  match r.reconcileRateLimit w mt with
  | (true, mt1, w1) =>
    (⟨⟨false, 30 * Second⟩, none, tr ++ [Event.reconcileRateLimit true], w1⟩, mt1)
  | (false, mt1, w1) =>
    -- line 110
    r.reconcile w1 (tr ++ [Event.reconcileRateLimit false]) machineTemplateScope mt1

/-- The deferred closure of lines 99-103, run on what the body returned: `Close` is called,
and its error becomes the returned error only when the body returned none. -/
def HCloudMachineTemplateReconciler.deferredClose (r : HCloudMachineTemplateReconciler σ)
    (machineTemplateScope : HCloudMachineTemplateScope)
    (body : Outcome σ × HCloudMachineTemplate) : Outcome σ :=
  match r.Close body.1.world machineTemplateScope body.2 with
  | (cerr, _, w1) =>
    let reterr := if cerr.isSome && body.1.reterr.isNone then cerr else body.1.reterr
    ⟨body.1.result, reterr, body.1.trace ++ [Event.close body.2 cerr], w1⟩

/-- The method `Reconcile`, lines 49-111: one pass for the request `req` from the external
world `w`. -/
def HCloudMachineTemplateReconciler.Reconcile (r : HCloudMachineTemplateReconciler σ)
    (w : σ) (req : Request) : Outcome σ :=
  -- line 54: r.Get(ctx, req.NamespacedName, machineTemplate)
  match r.Get w req.NamespacedName with
  | (.error err, w1) =>
    -- line 56
    ⟨Result.empty, IgnoreNotFound err, [Event.get req.NamespacedName none (some err)], w1⟩
  | (.ok machineTemplate, w1) =>
    let tr1 := [Event.get req.NamespacedName (some machineTemplate) none]
    -- line 60: util.GetClusterFromMetadata(ctx, r.Client, machineTemplate.ObjectMeta)
    match r.GetClusterFromMetadata w1 machineTemplate.ObjectMeta with
    | (.error err, w2) =>
      -- line 63
      ⟨Result.empty, none,
        tr1 ++ [Event.getClusterFromMetadata machineTemplate.ObjectMeta (some err)], w2⟩
    | (.ok cluster, w2) =>
      let tr2 := tr1 ++ [Event.getClusterFromMetadata machineTemplate.ObjectMeta none]
      -- lines 70-73
      let hetznerClusterName : NamespacedName :=
        ⟨machineTemplate.Namespace, cluster.InfrastructureRefName⟩
      -- line 74: r.Client.Get(ctx, hetznerClusterName, hetznerCluster)
      match r.GetHetznerCluster w2 hetznerClusterName with
      | (.error err, w3) =>
        -- line 76
        ⟨Result.empty, none, tr2 ++ [Event.getHetznerCluster hetznerClusterName (some err)], w3⟩
      | (.ok hetznerCluster, w3) =>
        let tr3 := tr2 ++ [Event.getHetznerCluster hetznerClusterName none]
        -- line 81: getAndValidateHCloudToken(ctx, req.Namespace, hetznerCluster, secretManager)
        match r.getAndValidateHCloudToken w3 req.Namespace hetznerCluster with
        | (.error err, w4) =>
          -- line 83
          match r.hcloudTokenErrorResult w4 err machineTemplate r.InstanceReadyCondition with
          | ((res, reterr), _, w5) =>
            ⟨res, reterr,
              tr3 ++ [Event.getAndValidateHCloudToken req.Namespace (some err),
                      Event.hcloudTokenErrorResult err], w5⟩
        | (.ok hcloudToken, w4) =>
          let tr4 := tr3 ++ [Event.getAndValidateHCloudToken req.Namespace none]
          -- line 86: r.HCloudClientFactory.NewClient(hcloudToken)
          match r.NewClient w4 hcloudToken with
          | (hcc, w5) =>
            let tr5 := tr4 ++ [Event.newClient hcloudToken]
            -- line 88: scope.NewHCloudMachineTemplateScope(ctx, params)
            match r.NewHCloudMachineTemplateScope w5 ⟨machineTemplate, hcc⟩ with
            | (.error err, w6) =>
              -- line 95
              ⟨Result.empty, some (Error.plain (createScopeFailedMsg err)),
                tr5 ++ [Event.newScope (some err)], w6⟩
            | (.ok machineTemplateScope, w6) =>
              let tr6 := tr5 ++ [Event.newScope none]
              -- lines 105-110 run first, the deferred closure of lines 99-103 on their result
              r.deferredClose machineTemplateScope
                (r.rateGate w6 tr6 machineTemplateScope machineTemplate)

end Pass

/-! ## Order of calls in a trace -/

/-- The answers of the collaborators in a scripted run. -/
structure Script where
  object : HCloudMachineTemplate
  getErr : Option Error
  clusterErr : Option Error
  hetznerClusterErr : Option Error
  tokenErr : Option Error
  scopeErr : Option Error
  wait : Bool
  patchErr : Option Error
  serviceResult : Result
  serviceErr : Option Error
  closeErr : Option Error

/-- Answers with the error of the script if there is one, with the value otherwise. -/
def answer {α : Type} (err : Option Error) (a : α) : Except Error α :=
  match err with
  | some e => .error e
  | none => .ok a

/-- The reconciler that follows the script `s`. -/
def scripted (s : Script) : HCloudMachineTemplateReconciler Nat where
  MachineFinalizer := "hcloudmachine.infrastructure.cluster.x-k8s.io"
  InstanceReadyCondition := "InstanceReady"
  Get w _ := (answer s.getErr s.object, w + 1)
  GetClusterFromMetadata w _ := (answer s.clusterErr ⟨"cluster", "hetzner-cluster"⟩, w + 1)
  GetHetznerCluster w key := (answer s.hetznerClusterErr ⟨key.Namespace, key.Name, "hetzner"⟩, w + 1)
  getAndValidateHCloudToken w _ _ := (answer s.tokenErr "token", w + 1)
  hcloudTokenErrorResult w _ o cond := ((Result.empty, none), { o with Status := (cond, "False") :: o.Status }, w + 1)
  NewClient w token := (⟨token, w⟩, w + 1)
  NewHCloudMachineTemplateScope w params :=
    (answer s.scopeErr ⟨params.HCloudMachineTemplate, params.HCloudClient⟩, w + 1)
  Close w _ o := (s.closeErr, o, w + 1)
  reconcileRateLimit w o := (s.wait, o, w + 1)
  PatchObject w _ o := (s.patchErr, o, w + 1)
  ServiceReconcile w _ o := ((s.serviceResult, s.serviceErr), o, w + 1)
  breakReconcile res err := (res, err.isSome || res.Requeue || res.RequeueAfter != 0, err)

/-- The object of the scripted runs: no finalizer yet. -/
def template : HCloudMachineTemplate :=
  ⟨⟨"default", "worker", [("cluster.x-k8s.io/cluster-name", "cluster")], []⟩, "cx31", []⟩

/-- The request of the scripted runs. -/
def request : Request := ⟨⟨"default", "worker"⟩⟩

/-- The script in which every collaborator succeeds and the rate limiter lets the pass through. -/
def allSucceed : Script :=
  ⟨template, none, none, none, none, none, false, none, Result.empty, none, none⟩

/-- The script in which the object is gone from the store. -/
def objectGone : Script :=
  { allSucceed with getErr := some (Error.notFound "hcloudmachinetemplates worker not found") }

/-- The script of a throttled pass. -/
def throttled : Script := { allSucceed with wait := true }

/-- The script of a throttled pass whose `Close` fails. -/
def throttledCloseFails : Script :=
  { allSucceed with wait := true, closeErr := some (Error.plain "conflict") }

/-- The script in which the store cannot be reached when the parent Cluster is looked up. -/
def clusterUnreachable : Script :=
  { allSucceed with clusterErr := some (Error.plain "connection refused") }

/-- The script in which the parent Cluster does not exist. -/
def clusterMissing : Script :=
  { allSucceed with clusterErr := some (Error.notFound "clusters cluster not found") }

/-- The script in which the store cannot be reached when the HetznerCluster is fetched. -/
def hetznerClusterUnreachable : Script :=
  { allSucceed with hetznerClusterErr := some (Error.plain "connection refused") }

/-- The script in which `PatchObject` fails. -/
def patchFails : Script := { allSucceed with patchErr := some (Error.plain "conflict") }

/-- The script in which the sub-reconciler fails. -/
def serviceFails : Script :=
  { allSucceed with serviceErr := some (Error.plain "server create failed") }

/-- The script in which the sub-reconciler fails with an error that is itself the value of
`errors.Wrapf`. -/
def serviceFailsWrapped : Script :=
  { allSucceed with
    serviceErr := Wrapf (some (Error.plain "quota exceeded")) "failed to create server" }

/-- The script in which the sub-reconciler asks for a requeue without an error and `Close`
fails. -/
def requeueCloseFails : Script :=
  { allSucceed with serviceResult := ⟨false, 5 * Second⟩, closeErr := some (Error.plain "conflict") }

/-- The calls of a pass up to and including the successful construction of the scope. -/
def scopeTrace (key : NamespacedName) (mt : HCloudMachineTemplate) (hcKey : NamespacedName)
    (ns token : String) : List Event :=
  [Event.get key (some mt) none,
   Event.getClusterFromMetadata mt.ObjectMeta none,
   Event.getHetznerCluster hcKey none,
   Event.getAndValidateHCloudToken ns none,
   Event.newClient token,
   Event.newScope none]

/-! ## Lemmas on traces -/

theorem mem_AddFinalizer (o : HCloudMachineTemplate) (finalizer : String) :
    finalizer ∈ (AddFinalizer o finalizer).ObjectMeta.Finalizers := by
  unfold AddFinalizer
  split
  · assumption
  · simp

/-! ## The paths of a pass -/

section Paths

variable {σ : Type}

/-- The paths of `reconcile`: the patch fails, the sub-reconciler breaks, or it does not. -/
theorem reconcile_cases (r : HCloudMachineTemplateReconciler σ) (w : σ) (tr : List Event)
    (sc : HCloudMachineTemplateScope) (mt : HCloudMachineTemplate) :
    (∃ e, (r.reconcile w tr sc mt).1.trace =
          tr ++ [Event.addFinalizer r.MachineFinalizer,
                 Event.patchObject (AddFinalizer mt r.MachineFinalizer) (some e)] ∧
        (r.reconcile w tr sc mt).1.result = Result.empty ∧
        (r.reconcile w tr sc mt).1.reterr = some e) ∨
    (∃ o res serr result err, (r.reconcile w tr sc mt).1.trace =
          tr ++ [Event.addFinalizer r.MachineFinalizer,
                 Event.patchObject (AddFinalizer mt r.MachineFinalizer) none,
                 Event.serviceReconcile o res serr] ∧
        r.breakReconcile res serr = (result, true, err) ∧
        (r.reconcile w tr sc mt).2 = o ∧
        (r.reconcile w tr sc mt).1.result = result ∧
        (r.reconcile w tr sc mt).1.reterr = Wrapf err (reconcileFailedMsg o)) ∨
    (∃ o res serr result err, (r.reconcile w tr sc mt).1.trace =
          tr ++ [Event.addFinalizer r.MachineFinalizer,
                 Event.patchObject (AddFinalizer mt r.MachineFinalizer) none,
                 Event.serviceReconcile o res serr] ∧
        r.breakReconcile res serr = (result, false, err) ∧
        (r.reconcile w tr sc mt).2 = o ∧
        (r.reconcile w tr sc mt).1.result = Result.empty ∧
        (r.reconcile w tr sc mt).1.reterr = none) := by
  rcases hp : r.PatchObject w sc (AddFinalizer mt r.MachineFinalizer) with ⟨_ | e, mt2, w2⟩
  · rcases hs : r.ServiceReconcile w2 sc mt2 with ⟨⟨res, serr⟩, mt3, w3⟩
    rcases hb : r.breakReconcile res serr with ⟨result, _ | _, err⟩
    · right; right
      exact ⟨mt3, res, serr, result, err, by
        simp [HCloudMachineTemplateReconciler.reconcile, hp, hs, hb]⟩
    · right; left
      exact ⟨mt3, res, serr, result, err, by
        simp [HCloudMachineTemplateReconciler.reconcile, hp, hs, hb]⟩
  · left
    exact ⟨e, by simp [HCloudMachineTemplateReconciler.reconcile, hp]⟩

/-- The deferred closure calls `Close` once, keeps the Result of the body, and returns the
error of the body if there is one and the error of `Close` otherwise. -/
theorem deferredClose_eq (r : HCloudMachineTemplateReconciler σ)
    (sc : HCloudMachineTemplateScope) (body : Outcome σ × HCloudMachineTemplate) :
    ∃ cerr, (r.deferredClose sc body).trace = body.1.trace ++ [Event.close body.2 cerr] ∧
      (r.deferredClose sc body).result = body.1.result ∧
      (r.deferredClose sc body).reterr =
        (match body.1.reterr with
         | some e => some e
         | none => cerr) := by
  rcases hc : r.Close body.1.world sc body.2 with ⟨cerr, o2, w2⟩
  refine ⟨cerr, ?_, ?_, ?_⟩
  · simp [HCloudMachineTemplateReconciler.deferredClose, hc]
  · simp [HCloudMachineTemplateReconciler.deferredClose, hc]
  · cases hb : body.1.reterr <;> cases cerr <;>
      simp [HCloudMachineTemplateReconciler.deferredClose, hc, hb]

/-- The paths of a pass once the scope exists: throttled, patch failure, break, no break;
each ends with the deferred `Close`. -/
theorem scoped_cases (r : HCloudMachineTemplateReconciler σ) (w : σ) (tr : List Event)
    (sc : HCloudMachineTemplateScope) (mt : HCloudMachineTemplate) :
    (∃ o cerr, (r.deferredClose sc (r.rateGate w tr sc mt)).trace =
          tr ++ [Event.reconcileRateLimit true, Event.close o cerr] ∧
        (r.deferredClose sc (r.rateGate w tr sc mt)).result = ⟨false, 30 * Second⟩ ∧
        (r.deferredClose sc (r.rateGate w tr sc mt)).reterr = cerr) ∨
    (∃ o1 e o cerr, (r.deferredClose sc (r.rateGate w tr sc mt)).trace =
          tr ++ [Event.reconcileRateLimit false, Event.addFinalizer r.MachineFinalizer,
                 Event.patchObject (AddFinalizer o1 r.MachineFinalizer) (some e),
                 Event.close o cerr] ∧
        (r.deferredClose sc (r.rateGate w tr sc mt)).result = Result.empty ∧
        (r.deferredClose sc (r.rateGate w tr sc mt)).reterr = some e) ∨
    (∃ o1 o res serr result err cerr, (r.deferredClose sc (r.rateGate w tr sc mt)).trace =
          tr ++ [Event.reconcileRateLimit false, Event.addFinalizer r.MachineFinalizer,
                 Event.patchObject (AddFinalizer o1 r.MachineFinalizer) none,
                 Event.serviceReconcile o res serr, Event.close o cerr] ∧
        r.breakReconcile res serr = (result, true, err) ∧
        (r.deferredClose sc (r.rateGate w tr sc mt)).result = result ∧
        (r.deferredClose sc (r.rateGate w tr sc mt)).reterr =
          (match err with
           | some e => some (Error.withStack (Error.withMessage e (reconcileFailedMsg o)))
           | none => cerr)) ∨
    (∃ o1 o res serr result err cerr, (r.deferredClose sc (r.rateGate w tr sc mt)).trace =
          tr ++ [Event.reconcileRateLimit false, Event.addFinalizer r.MachineFinalizer,
                 Event.patchObject (AddFinalizer o1 r.MachineFinalizer) none,
                 Event.serviceReconcile o res serr, Event.close o cerr] ∧
        r.breakReconcile res serr = (result, false, err) ∧
        (r.deferredClose sc (r.rateGate w tr sc mt)).result = Result.empty ∧
        (r.deferredClose sc (r.rateGate w tr sc mt)).reterr = cerr) := by
  obtain ⟨cerr, ht, hr, he⟩ := deferredClose_eq r sc (r.rateGate w tr sc mt)
  rw [ht, hr, he]
  rcases hrl : r.reconcileRateLimit w mt with ⟨_ | _, mt1, w1⟩
  · have hg : r.rateGate w tr sc mt = r.reconcile w1 (tr ++ [Event.reconcileRateLimit false]) sc mt1 := by
      simp [HCloudMachineTemplateReconciler.rateGate, hrl]
    rw [hg]
    rcases reconcile_cases r w1 (tr ++ [Event.reconcileRateLimit false]) sc mt1 with
      ⟨e, h1, h2, h3⟩ | ⟨o, res, serr, result, err, h1, hb, ho, h2, h3⟩ |
      ⟨o, res, serr, result, err, h1, hb, ho, h2, h3⟩
    · right; left
      exact ⟨mt1, e, (r.reconcile w1 (tr ++ [Event.reconcileRateLimit false]) sc mt1).2, cerr, by
        simp [h1, h2, h3]⟩
    · right; right; left
      refine ⟨mt1, o, res, serr, result, err, cerr, ?_, hb, h2, ?_⟩
      · simp [h1, ho]
      · cases err <;> simp [h3, Wrapf]
    · right; right; right
      refine ⟨mt1, o, res, serr, result, err, cerr, ?_, hb, h2, ?_⟩
      · simp [h1, ho]
      · simp [h3]
  · left
    have hg : r.rateGate w tr sc mt =
        (⟨⟨false, 30 * Second⟩, none, tr ++ [Event.reconcileRateLimit true], w1⟩, mt1) := by
      simp [HCloudMachineTemplateReconciler.rateGate, hrl]
    rw [hg]
    exact ⟨mt1, cerr, by simp⟩

/-- The paths of a pass: the five returns before the scope exists and the four after. -/
theorem Reconcile_cases (r : HCloudMachineTemplateReconciler σ) (w : σ) (req : Request) :
    (∃ err, (r.Reconcile w req).trace = [Event.get req.NamespacedName none (some err)] ∧
        (r.Reconcile w req).result = Result.empty ∧
        (r.Reconcile w req).reterr = IgnoreNotFound err) ∨
    (∃ mt err, (r.Reconcile w req).trace =
          [Event.get req.NamespacedName (some mt) none,
           Event.getClusterFromMetadata mt.ObjectMeta (some err)] ∧
        (r.Reconcile w req).result = Result.empty ∧
        (r.Reconcile w req).reterr = none) ∨
    (∃ mt k err, (r.Reconcile w req).trace =
          [Event.get req.NamespacedName (some mt) none,
           Event.getClusterFromMetadata mt.ObjectMeta none,
           Event.getHetznerCluster k (some err)] ∧
        (r.Reconcile w req).result = Result.empty ∧
        (r.Reconcile w req).reterr = none) ∨
    (∃ mt k err, (r.Reconcile w req).trace =
          [Event.get req.NamespacedName (some mt) none,
           Event.getClusterFromMetadata mt.ObjectMeta none,
           Event.getHetznerCluster k none,
           Event.getAndValidateHCloudToken req.Namespace (some err),
           Event.hcloudTokenErrorResult err]) ∨
    (∃ mt k tok err, (r.Reconcile w req).trace =
          [Event.get req.NamespacedName (some mt) none,
           Event.getClusterFromMetadata mt.ObjectMeta none,
           Event.getHetznerCluster k none,
           Event.getAndValidateHCloudToken req.Namespace none,
           Event.newClient tok,
           Event.newScope (some err)] ∧
        (r.Reconcile w req).result = Result.empty ∧
        (r.Reconcile w req).reterr = some (Error.plain (createScopeFailedMsg err))) ∨
    (∃ mt k tok o cerr, (r.Reconcile w req).trace =
          scopeTrace req.NamespacedName mt k req.Namespace tok ++
            [Event.reconcileRateLimit true, Event.close o cerr] ∧
        (r.Reconcile w req).result = ⟨false, 30 * Second⟩ ∧
        (r.Reconcile w req).reterr = cerr) ∨
    (∃ mt k tok o1 e o cerr, (r.Reconcile w req).trace =
          scopeTrace req.NamespacedName mt k req.Namespace tok ++
            [Event.reconcileRateLimit false, Event.addFinalizer r.MachineFinalizer,
             Event.patchObject (AddFinalizer o1 r.MachineFinalizer) (some e),
             Event.close o cerr] ∧
        (r.Reconcile w req).result = Result.empty ∧
        (r.Reconcile w req).reterr = some e) ∨
    (∃ mt k tok o1 o res serr result err cerr, (r.Reconcile w req).trace =
          scopeTrace req.NamespacedName mt k req.Namespace tok ++
            [Event.reconcileRateLimit false, Event.addFinalizer r.MachineFinalizer,
             Event.patchObject (AddFinalizer o1 r.MachineFinalizer) none,
             Event.serviceReconcile o res serr, Event.close o cerr] ∧
        r.breakReconcile res serr = (result, true, err) ∧
        (r.Reconcile w req).result = result ∧
        (r.Reconcile w req).reterr =
          (match err with
           | some e => some (Error.withStack (Error.withMessage e (reconcileFailedMsg o)))
           | none => cerr)) ∨
    (∃ mt k tok o1 o res serr result err cerr, (r.Reconcile w req).trace =
          scopeTrace req.NamespacedName mt k req.Namespace tok ++
            [Event.reconcileRateLimit false, Event.addFinalizer r.MachineFinalizer,
             Event.patchObject (AddFinalizer o1 r.MachineFinalizer) none,
             Event.serviceReconcile o res serr, Event.close o cerr] ∧
        r.breakReconcile res serr = (result, false, err) ∧
        (r.Reconcile w req).result = Result.empty ∧
        (r.Reconcile w req).reterr = cerr) := by
  rcases hget : r.Get w req.NamespacedName with ⟨err | mt, w1⟩
  · left
    exact ⟨err, by simp [HCloudMachineTemplateReconciler.Reconcile, hget]⟩
  right
  rcases hcl : r.GetClusterFromMetadata w1 mt.ObjectMeta with ⟨err | cluster, w2⟩
  · left
    exact ⟨mt, err, by simp [HCloudMachineTemplateReconciler.Reconcile, hget, hcl]⟩
  right
  rcases hhc : r.GetHetznerCluster w2 ⟨mt.Namespace, cluster.InfrastructureRefName⟩ with
    ⟨err | hetznerCluster, w3⟩
  · left
    exact ⟨mt, (⟨mt.Namespace, cluster.InfrastructureRefName⟩ : NamespacedName), err, by
      simp [HCloudMachineTemplateReconciler.Reconcile, hget, hcl, hhc]⟩
  right
  rcases htk : r.getAndValidateHCloudToken w3 req.Namespace hetznerCluster with ⟨err | tok, w4⟩
  · left
    exact ⟨mt, (⟨mt.Namespace, cluster.InfrastructureRefName⟩ : NamespacedName), err, by
      simp [HCloudMachineTemplateReconciler.Reconcile, hget, hcl, hhc, htk]⟩
  right
  rcases hnc : r.NewClient w4 tok with ⟨hcc, w5⟩
  rcases hsc : r.NewHCloudMachineTemplateScope w5 ⟨mt, hcc⟩ with ⟨err | sc, w6⟩
  · left
    exact ⟨mt, (⟨mt.Namespace, cluster.InfrastructureRefName⟩ : NamespacedName), tok, err, by
      simp [HCloudMachineTemplateReconciler.Reconcile, hget, hcl, hhc, htk, hnc, hsc]⟩
  right
  have hR : r.Reconcile w req = r.deferredClose sc
      (r.rateGate w6 (scopeTrace req.NamespacedName mt
        ⟨mt.Namespace, cluster.InfrastructureRefName⟩ req.Namespace tok) sc mt) := by
    simp [HCloudMachineTemplateReconciler.Reconcile, hget, hcl, hhc, htk, hnc, hsc, scopeTrace]
  rw [hR]
  rcases scoped_cases r w6 (scopeTrace req.NamespacedName mt
      ⟨mt.Namespace, cluster.InfrastructureRefName⟩ req.Namespace tok) sc mt with
    ⟨o, cerr, h⟩ | ⟨o1, e, o, cerr, h⟩ | ⟨o1, o, res, serr, result, err, cerr, h⟩ |
    ⟨o1, o, res, serr, result, err, cerr, h⟩
  · left
    exact ⟨mt, _, tok, o, cerr, h⟩
  · right; left
    exact ⟨mt, _, tok, o1, e, o, cerr, h⟩
  · right; right; left
    exact ⟨mt, _, tok, o1, o, res, serr, result, err, cerr, h⟩
  · right; right; right
    exact ⟨mt, _, tok, o1, o, res, serr, result, err, cerr, h⟩

end Paths

/-! ## Properties of the pass -/

section Claims

variable {σ : Type}

/-- C2 as stated fails: in the pass that finds the object gone, `Close` is not called. -/
theorem C2_counterexample :
    ¬ closeCount ((scripted objectGone).Reconcile 0 request).trace = 1 := by
  decide

/-- C2 (amended): `Close` is called exactly once in every pass that constructed the scope
and not at all in a pass that returned before the scope existed. -/
theorem C2_close_once_after_scope (r : HCloudMachineTemplateReconciler σ) (w : σ) (req : Request) :
    closeCount (r.Reconcile w req).trace =
      if Event.newScope none ∈ (r.Reconcile w req).trace then 1 else 0 := by
  rcases Reconcile_cases r w req with
    ⟨err, ht, hres, herr⟩ | ⟨mt, err, ht, hres, herr⟩ | ⟨mt, k, err, ht, hres, herr⟩ |
    ⟨mt, k, err, ht⟩ | ⟨mt, k, tok, err, ht, hres, herr⟩ |
    ⟨mt, k, tok, o, cerr, ht, hres, herr⟩ | ⟨mt, k, tok, o1, e, o, cerr, ht, hres, herr⟩ |
    ⟨mt, k, tok, o1, o, res, serr, result, err, cerr, ht, hbr, hres, herr⟩ |
    ⟨mt, k, tok, o1, o, res, serr, result, err, cerr, ht, hbr, hres, herr⟩
  all_goals simp [ht, closeCount, Event.isClose, scopeTrace]

/-- C3 as stated fails: a throttled pass whose `Close` fails returns the error of `Close`. -/
theorem C3_counterexample :
    Event.reconcileRateLimit true ∈ ((scripted throttledCloseFails).Reconcile 0 request).trace ∧
    ((scripted throttledCloseFails).Reconcile 0 request).reterr = some (Error.plain "conflict") ∧
    ¬ ((scripted throttledCloseFails).Reconcile 0 request).reterr = none := by
  decide

/-- C3 (amended): in a pass whose rate gate answers true, the sub-reconciler is not called,
the finalizer is not added, `PatchObject` is not called, the Result has RequeueAfter of 30
seconds, and the returned error is the one of the deferred `Close` (nil when it succeeds). -/
theorem C3_throttled (r : HCloudMachineTemplateReconciler σ) (w : σ) (req : Request)
    (h : Event.reconcileRateLimit true ∈ (r.Reconcile w req).trace) :
    (∀ ev ∈ (r.Reconcile w req).trace,
      ev.isServiceReconcile = false ∧ ev.isAddFinalizer = false ∧ ev.isPatchObject = false) ∧
    (r.Reconcile w req).result = ⟨false, 30 * Second⟩ ∧
    (r.Reconcile w req).result.RequeueAfter = 30000000000 ∧
    (∃ o cerr, Event.close o cerr ∈ (r.Reconcile w req).trace) ∧
    (∀ o cerr, Event.close o cerr ∈ (r.Reconcile w req).trace →
      (r.Reconcile w req).reterr = cerr) := by
  rcases Reconcile_cases r w req with
    ⟨err, ht, hres, herr⟩ | ⟨mt, err, ht, hres, herr⟩ | ⟨mt, k, err, ht, hres, herr⟩ |
    ⟨mt, k, err, ht⟩ | ⟨mt, k, tok, err, ht, hres, herr⟩ |
    ⟨mt, k, tok, o, cerr, ht, hres, herr⟩ | ⟨mt, k, tok, o1, e, o, cerr, ht, hres, herr⟩ |
    ⟨mt, k, tok, o1, o, res, serr, result, err, cerr, ht, hbr, hres, herr⟩ |
    ⟨mt, k, tok, o1, o, res, serr, result, err, cerr, ht, hbr, hres, herr⟩
  all_goals
    simp [ht, scopeTrace] at h
  simp [ht, hres, herr, scopeTrace, Event.isServiceReconcile, Event.isAddFinalizer,
    Event.isPatchObject, Second]

/-- C3 (amended), on the scripted throttled pass: 30 seconds and no error. -/
theorem C3_throttled_witness :
    Event.reconcileRateLimit true ∈ ((scripted throttled).Reconcile 0 request).trace ∧
    ((scripted throttled).Reconcile 0 request).result = ⟨false, 30 * Second⟩ ∧
    ((scripted throttled).Reconcile 0 request).reterr = none :=
  ⟨by decide,
   (C3_throttled (scripted throttled) 0 request (by decide)).2.1,
   (C3_throttled (scripted throttled) 0 request (by decide)).2.2.2.2 template none (by decide)⟩

/-- C4: when the object is fetched, parent Cluster and HetznerCluster resolve, the token
validates, the scope is built, the rate limiter answers false, `PatchObject` succeeds, the
sub-reconciler outcome is classified as no break and `Close` succeeds, then `PatchObject`
was handed an object carrying `MachineFinalizer` and answered no error, and the pass
returns the empty Result and a nil error (whether or not the fetched object had the
finalizer). -/
theorem C4_scenario_success (r : HCloudMachineTemplateReconciler σ) (w : σ) (req : Request)
    (mt : HCloudMachineTemplate) (w1 : σ) (cluster : Cluster) (w2 : σ)
    (hetznerCluster : HetznerCluster) (w3 : σ) (tok : String) (w4 : σ) (hcc : HCloudClient)
    (w5 : σ) (sc : HCloudMachineTemplateScope) (w6 : σ) (mt1 : HCloudMachineTemplate) (w7 : σ)
    (mt2 : HCloudMachineTemplate) (w8 : σ) (res : Result) (serr : Option Error)
    (mt3 : HCloudMachineTemplate) (w9 : σ) (result : Result) (err : Option Error)
    (mt4 : HCloudMachineTemplate) (w10 : σ)
    (hget : r.Get w req.NamespacedName = (.ok mt, w1))
    (hcl : r.GetClusterFromMetadata w1 mt.ObjectMeta = (.ok cluster, w2))
    (hhc : r.GetHetznerCluster w2 ⟨mt.Namespace, cluster.InfrastructureRefName⟩ =
      (.ok hetznerCluster, w3))
    (htk : r.getAndValidateHCloudToken w3 req.Namespace hetznerCluster = (.ok tok, w4))
    (hnc : r.NewClient w4 tok = (hcc, w5))
    (hsc : r.NewHCloudMachineTemplateScope w5 ⟨mt, hcc⟩ = (.ok sc, w6))
    (hrl : r.reconcileRateLimit w6 mt = (false, mt1, w7))
    (hpo : r.PatchObject w7 sc (AddFinalizer mt1 r.MachineFinalizer) = (none, mt2, w8))
    (hsr : r.ServiceReconcile w8 sc mt2 = ((res, serr), mt3, w9))
    (hbr : r.breakReconcile res serr = (result, false, err))
    (hcs : r.Close w9 sc mt3 = (none, mt4, w10)) :
    (∀ obj perr, Event.patchObject obj perr ∈ (r.Reconcile w req).trace →
      obj = AddFinalizer mt1 r.MachineFinalizer ∧ perr = none ∧
      r.MachineFinalizer ∈ obj.ObjectMeta.Finalizers) ∧
    Event.patchObject (AddFinalizer mt1 r.MachineFinalizer) none ∈ (r.Reconcile w req).trace ∧
    (r.Reconcile w req).reterr = none ∧
    (r.Reconcile w req).result = Result.empty := by
  simp [HCloudMachineTemplateReconciler.Reconcile, HCloudMachineTemplateReconciler.deferredClose,
    HCloudMachineTemplateReconciler.rateGate, HCloudMachineTemplateReconciler.reconcile,
    hget, hcl, hhc, htk, hnc, hsc, hrl, hpo, hsr, hbr, hcs, mem_AddFinalizer]

/-- C4, on the scripted run in which everything succeeds and the fetched object has no
finalizer. -/
theorem C4_scenario_success_witness :
    (scripted allSucceed).MachineFinalizer ∉ template.ObjectMeta.Finalizers ∧
    Event.patchObject (AddFinalizer template (scripted allSucceed).MachineFinalizer) none ∈
      ((scripted allSucceed).Reconcile 0 request).trace ∧
    ((scripted allSucceed).Reconcile 0 request).reterr = none ∧
    ((scripted allSucceed).Reconcile 0 request).result = Result.empty :=
  ⟨by decide,
   (C4_scenario_success (scripted allSucceed) 0 request template 1 ⟨"cluster", "hetzner-cluster"⟩
      2 ⟨"default", "hetzner-cluster", "hetzner"⟩ 3 "token" 4 ⟨"token", 4⟩ 5
      ⟨template, ⟨"token", 4⟩⟩ 6 template 7
      (AddFinalizer template (scripted allSucceed).MachineFinalizer) 8 Result.empty none
      (AddFinalizer template (scripted allSucceed).MachineFinalizer) 9 Result.empty none
      (AddFinalizer template (scripted allSucceed).MachineFinalizer) 10
      rfl rfl rfl rfl rfl rfl rfl rfl rfl rfl rfl).2⟩

/-- C5: in a pass that constructed the scope, the Result is the one of the body (rate gate
or `reconcile`); the returned error is the error of the body if it has one, whatever `Close`
answers, the error of `Close` if the body has none and `Close` fails, and nil if both are
nil. -/
theorem C5_close_error_precedence (r : HCloudMachineTemplateReconciler σ) (w : σ) (req : Request)
    (mt : HCloudMachineTemplate) (w1 : σ) (cluster : Cluster) (w2 : σ)
    (hetznerCluster : HetznerCluster) (w3 : σ) (tok : String) (w4 : σ) (hcc : HCloudClient)
    (w5 : σ) (sc : HCloudMachineTemplateScope) (w6 : σ)
    (body : Outcome σ × HCloudMachineTemplate) (cerr : Option Error)
    (mt4 : HCloudMachineTemplate) (w10 : σ)
    (hget : r.Get w req.NamespacedName = (.ok mt, w1))
    (hcl : r.GetClusterFromMetadata w1 mt.ObjectMeta = (.ok cluster, w2))
    (hhc : r.GetHetznerCluster w2 ⟨mt.Namespace, cluster.InfrastructureRefName⟩ =
      (.ok hetznerCluster, w3))
    (htk : r.getAndValidateHCloudToken w3 req.Namespace hetznerCluster = (.ok tok, w4))
    (hnc : r.NewClient w4 tok = (hcc, w5))
    (hsc : r.NewHCloudMachineTemplateScope w5 ⟨mt, hcc⟩ = (.ok sc, w6))
    (hbody : r.rateGate w6 (scopeTrace req.NamespacedName mt
      ⟨mt.Namespace, cluster.InfrastructureRefName⟩ req.Namespace tok) sc mt = body)
    (hcs : r.Close body.1.world sc body.2 = (cerr, mt4, w10)) :
    (r.Reconcile w req).result = body.1.result ∧
    (∀ e, body.1.reterr = some e → (r.Reconcile w req).reterr = some e) ∧
    (∀ c, body.1.reterr = none → cerr = some c → (r.Reconcile w req).reterr = some c) ∧
    (body.1.reterr = none → cerr = none → (r.Reconcile w req).reterr = none) := by
  have hR : r.Reconcile w req = r.deferredClose sc body := by
    simp [HCloudMachineTemplateReconciler.Reconcile, hget, hcl, hhc, htk, hnc, hsc, ← hbody,
      scopeTrace]
  rw [hR]
  refine ⟨?_, ?_, ?_, ?_⟩
  · simp [HCloudMachineTemplateReconciler.deferredClose, hcs]
  · intro e he
    simp [HCloudMachineTemplateReconciler.deferredClose, hcs, he]
  · intro c he hc
    simp [HCloudMachineTemplateReconciler.deferredClose, hcs, he, hc]
  · intro he hc
    simp [HCloudMachineTemplateReconciler.deferredClose, hcs, he, hc]

/-- C5, on three scripted runs: the patch error wins over a failing `Close`, the error of
`Close` is returned by a throttled pass together with the Result of the rate gate, and a
clean pass returns nil. -/
theorem C5_close_error_precedence_witness :
    ((scripted { patchFails with closeErr := some (Error.plain "gone") }).Reconcile 0 request).reterr
      = some (Error.plain "conflict") ∧
    ((scripted throttledCloseFails).Reconcile 0 request).result = ⟨false, 30 * Second⟩ ∧
    ((scripted throttledCloseFails).Reconcile 0 request).reterr = some (Error.plain "conflict") ∧
    ((scripted allSucceed).Reconcile 0 request).reterr = none :=
  ⟨(C5_close_error_precedence (scripted { patchFails with closeErr := some (Error.plain "gone") })
      0 request template 1 ⟨"cluster", "hetzner-cluster"⟩
      2 ⟨"default", "hetzner-cluster", "hetzner"⟩ 3 "token" 4 ⟨"token", 4⟩ 5
      ⟨template, ⟨"token", 4⟩⟩ 6 _ (some (Error.plain "gone")) _ 9
      rfl rfl rfl rfl rfl rfl rfl rfl).2.1 (Error.plain "conflict") rfl,
   (C5_close_error_precedence (scripted throttledCloseFails)
      0 request template 1 ⟨"cluster", "hetzner-cluster"⟩
      2 ⟨"default", "hetzner-cluster", "hetzner"⟩ 3 "token" 4 ⟨"token", 4⟩ 5
      ⟨template, ⟨"token", 4⟩⟩ 6 _ (some (Error.plain "conflict")) _ 8
      rfl rfl rfl rfl rfl rfl rfl rfl).1,
   (C5_close_error_precedence (scripted throttledCloseFails)
      0 request template 1 ⟨"cluster", "hetzner-cluster"⟩
      2 ⟨"default", "hetzner-cluster", "hetzner"⟩ 3 "token" 4 ⟨"token", 4⟩ 5
      ⟨template, ⟨"token", 4⟩⟩ 6 _ (some (Error.plain "conflict")) _ 8
      rfl rfl rfl rfl rfl rfl rfl rfl).2.2.1 (Error.plain "conflict") rfl rfl,
   (C5_close_error_precedence (scripted allSucceed)
      0 request template 1 ⟨"cluster", "hetzner-cluster"⟩
      2 ⟨"default", "hetzner-cluster", "hetzner"⟩ 3 "token" 4 ⟨"token", 4⟩ 5
      ⟨template, ⟨"token", 4⟩⟩ 6 _ none _ 10
      rfl rfl rfl rfl rfl rfl rfl rfl).2.2.2 rfl rfl⟩

/-- C6: when the parent Cluster cannot be resolved, or the HetznerCluster named by the
infrastructure reference of the Cluster in the namespace of the object cannot be fetched,
the pass returns the empty Result and a nil error, and its only collaborator calls are the
store reads: no token lookup, client or scope construction, rate-limiter query,
`PatchObject`, sub-reconciler or `Close`. -/
theorem C6_unresolved_parent (r : HCloudMachineTemplateReconciler σ) (w : σ) (req : Request)
    (mt : HCloudMachineTemplate) (w1 : σ)
    (hget : r.Get w req.NamespacedName = (.ok mt, w1))
    (h : (∃ err w2, r.GetClusterFromMetadata w1 mt.ObjectMeta = (.error err, w2)) ∨
      (∃ cluster w2 err w3, r.GetClusterFromMetadata w1 mt.ObjectMeta = (.ok cluster, w2) ∧
        r.GetHetznerCluster w2 ⟨mt.Namespace, cluster.InfrastructureRefName⟩ = (.error err, w3))) :
    (r.Reconcile w req).result = Result.empty ∧
    (r.Reconcile w req).reterr = none ∧
    ∀ ev ∈ (r.Reconcile w req).trace, ev.isFetch = true := by
  rcases h with ⟨err, w2, hcl⟩ | ⟨cluster, w2, err, w3, hcl, hhc⟩
  · simp [HCloudMachineTemplateReconciler.Reconcile, hget, hcl, Event.isFetch]
  · simp [HCloudMachineTemplateReconciler.Reconcile, hget, hcl, hhc, Event.isFetch]

/-- C6, on the scripted run in which the parent Cluster does not exist. -/
theorem C6_unresolved_parent_witness :
    ((scripted clusterMissing).Reconcile 0 request).result = Result.empty ∧
    ((scripted clusterMissing).Reconcile 0 request).reterr = none ∧
    ((scripted clusterMissing).Reconcile 0 request).trace.length = 2 :=
  ⟨(C6_unresolved_parent (scripted clusterMissing) 0 request template 1 rfl
      (Or.inl ⟨Error.notFound "clusters cluster not found", 2, rfl⟩)).1,
   (C6_unresolved_parent (scripted clusterMissing) 0 request template 1 rfl
      (Or.inl ⟨Error.notFound "clusters cluster not found", 2, rfl⟩)).2.1,
   by decide⟩

/-- C7 fails on the code: a lookup of the parent Cluster, or of the HetznerCluster, that
fails because the store cannot be reached (not a not-found error) ends the pass with the
empty Result and a nil error. -/
theorem C7_lookup_failure_swallowed :
    (Error.plain "connection refused").IsNotFound = false ∧
    Event.getClusterFromMetadata template.ObjectMeta (some (Error.plain "connection refused")) ∈
      ((scripted clusterUnreachable).Reconcile 0 request).trace ∧
    ((scripted clusterUnreachable).Reconcile 0 request).reterr = none ∧
    ((scripted clusterUnreachable).Reconcile 0 request).result = Result.empty ∧
    Event.getHetznerCluster ⟨"default", "hetzner-cluster"⟩ (some (Error.plain "connection refused")) ∈
      ((scripted hetznerClusterUnreachable).Reconcile 0 request).trace ∧
    ((scripted hetznerClusterUnreachable).Reconcile 0 request).reterr = none ∧
    ((scripted hetznerClusterUnreachable).Reconcile 0 request).result = Result.empty := by
  decide

/-- C9: when the initial fetch of the object fails, the pass returns the empty Result, with
a nil error if the failure is a not-found error and with exactly the failure otherwise, and
the failed fetch is the only collaborator call of the pass. -/
theorem C9_fetch_failure (r : HCloudMachineTemplateReconciler σ) (w : σ) (req : Request)
    (err : Error) (w1 : σ) (h : r.Get w req.NamespacedName = (.error err, w1)) :
    (r.Reconcile w req).result = Result.empty ∧
    (err.IsNotFound = true → (r.Reconcile w req).reterr = none) ∧
    (err.IsNotFound = false → (r.Reconcile w req).reterr = some err) ∧
    (r.Reconcile w req).trace = [Event.get req.NamespacedName none (some err)] := by
  simp [HCloudMachineTemplateReconciler.Reconcile, h, IgnoreNotFound]

/-- C9, on the scripted run in which the object is gone, and on one in which the store
cannot be reached. -/
theorem C9_fetch_failure_witness :
    ((scripted objectGone).Reconcile 0 request).result = Result.empty ∧
    ((scripted objectGone).Reconcile 0 request).reterr = none ∧
    ((scripted { allSucceed with getErr := some (Error.plain "timeout") }).Reconcile 0 request).reterr
      = some (Error.plain "timeout") :=
  ⟨(C9_fetch_failure (scripted objectGone) 0 request
      (Error.notFound "hcloudmachinetemplates worker not found") 1 rfl).1,
   (C9_fetch_failure (scripted objectGone) 0 request
      (Error.notFound "hcloudmachinetemplates worker not found") 1 rfl).2.1 rfl,
   (C9_fetch_failure (scripted { allSucceed with getErr := some (Error.plain "timeout") }) 0 request
      (Error.plain "timeout") 1 rfl).2.2.1 rfl⟩

/-- C10 as stated fails in two ways.  When the sub-reconciler outcome is a break with a nil
error and `Close` fails, the pass returns the error of `Close`, not nil.  When the outcome is
a break with an error that is itself a wrap, `errors.Cause` of the returned error is the
root cause, not that error. -/
theorem C10_counterexample :
    Event.serviceReconcile (AddFinalizer template (scripted requeueCloseFails).MachineFinalizer)
        ⟨false, 5 * Second⟩ none ∈ ((scripted requeueCloseFails).Reconcile 0 request).trace ∧
    (scripted requeueCloseFails).breakReconcile ⟨false, 5 * Second⟩ none =
      (⟨false, 5 * Second⟩, true, none) ∧
    ((scripted requeueCloseFails).Reconcile 0 request).reterr = some (Error.plain "conflict") ∧
    ¬ ((scripted requeueCloseFails).Reconcile 0 request).reterr = none ∧
    (scripted serviceFailsWrapped).breakReconcile Result.empty
        (some (Error.withStack (Error.withMessage (Error.plain "quota exceeded")
          "failed to create server"))) =
      (Result.empty, true, some (Error.withStack (Error.withMessage (Error.plain "quota exceeded")
          "failed to create server"))) ∧
    Option.map errorsCause ((scripted serviceFailsWrapped).Reconcile 0 request).reterr =
      some (Error.plain "quota exceeded") ∧
    ¬ Option.map errorsCause ((scripted serviceFailsWrapped).Reconcile 0 request).reterr =
      some (Error.withStack (Error.withMessage (Error.plain "quota exceeded")
          "failed to create server")) := by
  decide

/-- C10 (amended): when the sub-reconciler outcome is classified as a break, the pass returns
the classified Result.  With a non-nil error `e` the returned error is the value of
`errors.Wrapf` on `e`: its method `Cause()` gives the message wrapper, whose `Cause()` gives
`e`; `errors.Cause` of it is the root cause of `e`, which is `e` itself when `e` wraps
nothing; and its message is: failed to reconcile machinetemplate for HCloudMachineTemplate
namespace/name: message of `e`, for the object being reconciled.  With a nil error the
returned error is the one of the deferred `Close`: nil when `Close` succeeds. -/
theorem C10_break_outcome (r : HCloudMachineTemplateReconciler σ) (w : σ) (req : Request)
    (obj : HCloudMachineTemplate) (sres : Result) (sserr : Option Error)
    (classified : Result) (cause : Option Error)
    (hs : Event.serviceReconcile obj sres sserr ∈ (r.Reconcile w req).trace)
    (hb : r.breakReconcile sres sserr = (classified, true, cause)) :
    (r.Reconcile w req).result = classified ∧
    (∀ e, cause = some e →
      ∃ wrapped, (r.Reconcile w req).reterr = some wrapped ∧
        some wrapped = Wrapf (some e) (reconcileFailedMsg obj) ∧
        wrapped.Cause = some (Error.withMessage e (reconcileFailedMsg obj)) ∧
        (Error.withMessage e (reconcileFailedMsg obj)).Cause = some e ∧
        errorsCause wrapped = errorsCause e ∧
        (e.Cause = none → errorsCause wrapped = e) ∧
        wrapped.Error = "failed to reconcile machinetemplate for HCloudMachineTemplate " ++
          obj.Namespace ++ "/" ++ obj.Name ++ ": " ++ e.Error) ∧
    (cause = none →
      (∃ o cerr, Event.close o cerr ∈ (r.Reconcile w req).trace) ∧
      ∀ o cerr, Event.close o cerr ∈ (r.Reconcile w req).trace →
        (r.Reconcile w req).reterr = cerr) := by
  rcases Reconcile_cases r w req with
    ⟨err, ht, hres, herr⟩ | ⟨mt, err, ht, hres, herr⟩ | ⟨mt, k, err, ht, hres, herr⟩ |
    ⟨mt, k, err, ht⟩ | ⟨mt, k, tok, err, ht, hres, herr⟩ |
    ⟨mt, k, tok, o, cerr, ht, hres, herr⟩ | ⟨mt, k, tok, o1, e, o, cerr, ht, hres, herr⟩ |
    ⟨mt, k, tok, o1, o, res, serr, result, err, cerr, ht, hbr, hres, herr⟩ |
    ⟨mt, k, tok, o1, o, res, serr, result, err, cerr, ht, hbr, hres, herr⟩
  all_goals
    simp [ht, scopeTrace] at hs
  all_goals
    obtain ⟨rfl, rfl, rfl⟩ := hs
    rw [hb] at hbr
    simp at hbr
  obtain ⟨rfl, rfl⟩ := hbr
  refine ⟨hres, ?_, ?_⟩
  · intro e he
    subst he
    refine ⟨_, herr, rfl, rfl, rfl, rfl, ?_, ?_⟩
    · intro hc
      cases e <;> simp [Error.Cause] at hc <;> rfl
    · simp [Error.Error, reconcileFailedMsg]
  · intro hc
    subst hc
    simp [ht, herr, scopeTrace]

/-- C10 (amended), on the scripted run in which the sub-reconciler fails with an error that
wraps nothing. -/
theorem C10_break_outcome_witness :
    ((scripted serviceFails).Reconcile 0 request).result = Result.empty ∧
    ∃ wrapped, ((scripted serviceFails).Reconcile 0 request).reterr = some wrapped ∧
      errorsCause wrapped = Error.plain "server create failed" ∧
      wrapped.Error = "failed to reconcile machinetemplate for HCloudMachineTemplate " ++
        "default" ++ "/" ++ "worker" ++ ": " ++ "server create failed" :=
  ⟨(C10_break_outcome (scripted serviceFails) 0 request
      (AddFinalizer template (scripted serviceFails).MachineFinalizer) Result.empty
      (some (Error.plain "server create failed")) Result.empty
      (some (Error.plain "server create failed")) (by decide) rfl).1,
   match (C10_break_outcome (scripted serviceFails) 0 request
      (AddFinalizer template (scripted serviceFails).MachineFinalizer) Result.empty
      (some (Error.plain "server create failed")) Result.empty
      (some (Error.plain "server create failed")) (by decide) rfl).2.1 _ rfl with
   | ⟨wrapped, h1, _, _, _, _, h6, h7⟩ => ⟨wrapped, h1, h6 rfl, h7⟩⟩

end Claims

end Hetzner
